import Mathlib

set_option maxHeartbeats 1000000

/-!
Shallow embedding of `src/MetricsListener.js`.

The listener keeps two self-refreshing cache cells (CPU load and network
throughput), a request counter, and serves cached values over a small set of
HTTP routes rooted at a configurable path.  The embedding below translates the
source faithfully:

* JavaScript values that flow into responses are modelled by `JsVal`, with a
  structural model of `JSON.stringify`.
* Instance fields of the `MetricsListener` object form `ListenerState`; all
  mutation is explicit state passing.
* The asynchronous sampling callbacks (first seed call, interval ticks, the
  bootstrap failure handler) become pure step functions on `ListenerState`;
  a program execution is a trace of completion events folded over the state.
* The request handler closure returned by `requestListener()` becomes a pure
  function from state and request path to new state, a response record, and
  the `req.requestHandled` claim flag.
-/

/-- Model of a JavaScript value as it appears in response bodies. -/
inductive JsVal where
  | vnull : JsVal
  | vbool : Bool → JsVal
  | vnum : Int → JsVal
  | vstr : String → JsVal
  | varr : List JsVal → JsVal
  | vobj : List (String × JsVal) → JsVal

mutual

/-- Model of `JSON.stringify` on `JsVal` (string escaping elided; the spec
treats JSON encoding as external, and no claim inspects escape sequences). -/
def stringify : JsVal → String
  | JsVal.vnull => "null"
  | JsVal.vbool b => if b then "true" else "false"
  | JsVal.vnum n => toString n
  | JsVal.vstr s => "\"" ++ s ++ "\""
  | JsVal.varr xs => "[" ++ stringifyArr xs ++ "]"
  | JsVal.vobj fs => "\x7b" ++ stringifyFields fs ++ "\x7d"

/-- Comma-separated serialization of JSON array elements. -/
def stringifyArr : List JsVal → String
  | [] => ""
  | [x] => stringify x
  | x :: y :: rest => stringify x ++ "," ++ stringifyArr (y :: rest)

/-- Comma-separated serialization of JSON object fields. -/
def stringifyFields : List (String × JsVal) → String
  | [] => ""
  | [(k, v)] => "\"" ++ k ++ "\":" ++ stringify v
  | (k, v) :: f :: rest =>
      "\"" ++ k ++ "\":" ++ stringify v ++ "," ++ stringifyFields (f :: rest)

end

/-- CPU snapshot, shaped like the object stored in `this.lastCpuData`
(source lines 38-54).  JavaScript numbers are modelled by `Int`; the claims
only concern the integer default values.  The per-core array `cpus` is passed
through opaquely from the stat source, hence `List JsVal`. -/
structure CpuData where
  dateCaptured : Int
  avgload : Int
  currentload : Int
  currentload_user : Int
  currentload_system : Int
  currentload_nice : Int
  currentload_idle : Int
  currentload_irq : Int
  raw_currentload : Int
  raw_currentload_user : Int
  raw_currentload_system : Int
  raw_currentload_nice : Int
  raw_currentload_idle : Int
  raw_currentload_irq : Int
  cpus : List JsVal

/-- Network snapshot, shaped like the object stored in `this.lastNetworkData`
(source lines 55-64). -/
structure NetworkData where
  dateCaptured : Int
  iface : String
  operstate : String
  rx : Int
  tx : Int
  rx_sec : Int
  tx_sec : Int
  ms : Int

/-- The default CPU value installed by `_initializeDefaults` (lines 38-54). -/
def defaultCpuData : CpuData :=
  { dateCaptured := 0
    avgload := 0
    currentload := 0
    currentload_user := 0
    currentload_system := 0
    currentload_nice := 0
    currentload_idle := 100
    currentload_irq := 0
    raw_currentload := 0
    raw_currentload_user := 0
    raw_currentload_system := 0
    raw_currentload_nice := 0
    raw_currentload_idle := 0
    raw_currentload_irq := 0
    cpus := [] }

/-- The default network value installed by `_initializeDefaults` (lines 55-64). -/
def defaultNetworkData : NetworkData :=
  { dateCaptured := 0
    iface := "unknown"
    operstate := "unknown"
    rx := 0
    tx := 0
    rx_sec := -1
    tx_sec := -1
    ms := 0 }

/-- Instance fields of a `MetricsListener` object.  `cpuIntervals` and
`networkIntervals` are the sample counters set to `0` at the start of
`_initCpuMonitoring` / `_initNetworkMonitoring`; errors are the raw rejection
values (modelled as `JsVal`, `none` standing for JavaScript `null`). -/
structure ListenerState where
  apiPath : String
  interval : Int
  requestCount : Nat
  lastCpuData : CpuData
  lastNetworkData : NetworkData
  lastCpuError : Option JsVal
  lastNetworkError : Option JsVal
  cpuIntervals : Nat
  networkIntervals : Nat

/-- `DEFAULT_PATH_PREFIX` from the source (line 6); shortened name because of
local lexical conventions. -/
def DEFAULT_PATH : String := "/metrics"

/-- `DEFAULT_INTERVAL` from the source (line 7). -/
def DEFAULT_INTERVAL : Int := 1000

/-- The constructor's trailing-slash loop (lines 14-16):
`while (apiPath.endsWith('/')) apiPath = apiPath.substring(0, length - 1)`,
i.e. all trailing `'/'` characters are removed. -/
def stripTrailingSlashes (s : String) : String :=
  String.mk ((s.data.reverse.dropWhile (fun c => c = '/')).reverse)

/-- Normalization of the `apiPath` constructor argument (lines 13-19).
`apiPath || DEFAULT_PATH_PREFIX` replaces only the empty string (the falsy
string); after stripping trailing slashes, `if (!apiPath)` again replaces
only the empty string. -/
def normalizeApiPath (apiPath : String) : String :=
  let a1 := if apiPath = "" then DEFAULT_PATH else apiPath
  let a2 := stripTrailingSlashes a1
  if a2 = "" then DEFAULT_PATH else a2

/-- Normalization of the `interval` constructor argument (lines 21-23).  The
argument is modelled as an `Int`, so `Number.isInteger` always holds. -/
def normalizeInterval (interval : Int) : Int :=
  if interval < 1 then DEFAULT_INTERVAL else interval

/-- The listener state right after the synchronous part of the constructor:
normalized configuration, `_initializeDefaults` (lines 35-67), and the two
counter resets at the start of the monitoring initializers (lines 71, 113). -/
def initialState (apiPath : String) (interval : Int) : ListenerState :=
  { apiPath := normalizeApiPath apiPath
    interval := normalizeInterval interval
    requestCount := 0
    lastCpuData := defaultCpuData
    lastNetworkData := defaultNetworkData
    lastCpuError := none
    lastNetworkError := none
    cpuIntervals := 0
    networkIntervals := 0 }

/-- What the handler wrote to the `http.ServerResponse`:  `statusCode` if
assigned, the `Content-Type` header if set, and the argument of `res.end`
(`some ""` for a bare `res.end()`, `none` when `end` was never called). -/
structure Response where
  statusCode : Option Nat
  contentType : Option String
  body : Option String

/-- A response the handler never touched. -/
def emptyResponse : Response :=
  { statusCode := none, contentType := none, body := none }

/-- `successResponse` (source lines 243-250): status 200, JSON content type,
body is the value verbatim when it is a string, else its serialization. -/
def successResponse (stat : JsVal) : Response :=
  { statusCode := some 200
    contentType := some "application/json"
    body := some (match stat with
                  | JsVal.vstr s => s
                  | _ => stringify stat) }

/-- `errorResponse` (source lines 252-259): status 500, JSON content type,
body is the error verbatim when it is a string, else its serialization. -/
def errorResponse (error : JsVal) : Response :=
  { statusCode := some 500
    contentType := some "application/json"
    body := some (match error with
                  | JsVal.vstr s => s
                  | _ => stringify error) }

/-- Model of JavaScript `String.prototype.startsWith`. -/
def jsStartsWith (s pre : String) : Bool :=
  pre.data.isPrefixOf s.data

/-- JSON view of the stored CPU snapshot (field insertion order as in
`_initializeDefaults`). -/
def cpuToJs (d : CpuData) : JsVal :=
  JsVal.vobj
    [("dateCaptured", JsVal.vnum d.dateCaptured),
     ("avgload", JsVal.vnum d.avgload),
     ("currentload", JsVal.vnum d.currentload),
     ("currentload_user", JsVal.vnum d.currentload_user),
     ("currentload_system", JsVal.vnum d.currentload_system),
     ("currentload_nice", JsVal.vnum d.currentload_nice),
     ("currentload_idle", JsVal.vnum d.currentload_idle),
     ("currentload_irq", JsVal.vnum d.currentload_irq),
     ("raw_currentload", JsVal.vnum d.raw_currentload),
     ("raw_currentload_user", JsVal.vnum d.raw_currentload_user),
     ("raw_currentload_system", JsVal.vnum d.raw_currentload_system),
     ("raw_currentload_nice", JsVal.vnum d.raw_currentload_nice),
     ("raw_currentload_idle", JsVal.vnum d.raw_currentload_idle),
     ("raw_currentload_irq", JsVal.vnum d.raw_currentload_irq),
     ("cpus", JsVal.varr d.cpus)]

/-- JSON view of the stored network snapshot. -/
def networkToJs (d : NetworkData) : JsVal :=
  JsVal.vobj
    [("dateCaptured", JsVal.vnum d.dateCaptured),
     ("iface", JsVal.vstr d.iface),
     ("operstate", JsVal.vstr d.operstate),
     ("rx", JsVal.vnum d.rx),
     ("tx", JsVal.vnum d.tx),
     ("rx_sec", JsVal.vnum d.rx_sec),
     ("tx_sec", JsVal.vnum d.tx_sec),
     ("ms", JsVal.vnum d.ms)]

/-- JavaScript property assignment `obj[k] = v` on an object modelled as a
field list: replace in place when the key exists, append otherwise. -/
def setField : List (String × JsVal) → String → JsVal → List (String × JsVal)
  | [], k, v => [(k, v)]
  | (k0, v0) :: rest, k, v =>
      if k0 = k then (k, v) :: rest else (k0, v0) :: setField rest k v

/-- The closure returned by `requestListener()` (source lines 162-240), with
the mutable `this` passed explicitly.  `memResult` is the outcome of the
`SystemInformation.mem()` call issued by the `/memory` route and `now` the
value of `Moment.utc().unix()` during the request; both are unused by every
other route.  Result: updated state, the written response, and the
`req.requestHandled` claim flag. -/
def requestListener (st : ListenerState)
    (memResult : Except JsVal (List (String × JsVal))) (now : Int)
    (path : String) : ListenerState × Response × Bool :=
  if path ≠ st.apiPath ∧ jsStartsWith path (st.apiPath ++ "/") = false then
    ({ st with requestCount := st.requestCount + 1 }, emptyResponse, false)
  else if path = st.apiPath ++ "/health" then
    (st, { statusCode := some 200, contentType := none, body := some "ok" },
     true)
  else if path = st.apiPath ++ "/requests/total" then
    (st,
     successResponse
       (JsVal.vstr ("\x7b\"metric\": " ++ toString st.requestCount ++ "\x7d")),
     true)
  else if path = st.apiPath ++ "/cpu" then
    (st,
     (match st.lastCpuError with
      | some e => errorResponse e
      | none => successResponse (cpuToJs st.lastCpuData)),
     true)
  else if path = st.apiPath ++ "/memory" then
    (st,
     (match memResult with
      | Except.ok memStats =>
          successResponse
            (JsVal.vobj (setField memStats "dateCaptured" (JsVal.vnum now)))
      | Except.error e => errorResponse e),
     true)
  else if path = st.apiPath ++ "/network" then
    (st,
     (match st.lastNetworkError with
      | some e => errorResponse e
      | none => successResponse (networkToJs st.lastNetworkData)),
     true)
  else if path = st.apiPath ++ "/network/rx" then
    (st,
     (match st.lastNetworkError with
      | some e => errorResponse e
      | none =>
          successResponse
            (JsVal.vstr
              ("\x7b\"metric\": " ++ toString st.lastNetworkData.rx ++ "\x7d"))),
     true)
  else if path = st.apiPath ++ "/network/tx" then
    (st,
     (match st.lastNetworkError with
      | some e => errorResponse e
      | none =>
          successResponse
            (JsVal.vstr
              ("\x7b\"metric\": " ++ toString st.lastNetworkData.tx ++ "\x7d"))),
     true)
  else
    ({ st with requestCount := st.requestCount + 1 },
     { statusCode := some 404, contentType := none, body := some "" },
     true)

/-- Completion of the initial (seed) `currentLoad` call in
`_initCpuMonitoring` (lines 72-84): success only increments the counter,
failure records the error. -/
def cpuSeedStep (st : ListenerState) : Except JsVal CpuData → ListenerState
  | Except.ok _ => { st with cpuIntervals := st.cpuIntervals + 1 }
  | Except.error e => { st with lastCpuError := some e }

/-- Completion of one interval tick's `currentLoad` call (lines 89-105):
on success the counter is pre-incremented and the snapshot adopted (stamped
with the capture time, clearing the error) only when the incremented counter
exceeds 1; on failure the error is recorded. -/
def cpuTickStep (st : ListenerState) (now : Int) :
    Except JsVal CpuData → ListenerState
  | Except.ok stats =>
      if st.cpuIntervals + 1 > 1 then
        { st with cpuIntervals := st.cpuIntervals + 1
                  lastCpuData := { stats with dateCaptured := now }
                  lastCpuError := none }
      else
        { st with cpuIntervals := st.cpuIntervals + 1 }
  | Except.error e => { st with lastCpuError := some e }

/-- Completion of the seed `networkStats` call (lines 118-130): success only
increments the counter, failure records the error. -/
def netSeedStep (st : ListenerState) : Except JsVal NetworkData → ListenerState
  | Except.ok _ => { st with networkIntervals := st.networkIntervals + 1 }
  | Except.error e => { st with lastNetworkError := some e }

/-- Completion of one interval tick's `networkStats` call (lines 136-145).
The promise chain in the source has no rejection handler here, so a failed
tick changes nothing (the rejection is unhandled). -/
def netTickStep (st : ListenerState) (now : Int) :
    Except JsVal NetworkData → ListenerState
  | Except.ok stats =>
      if st.networkIntervals + 1 > 1 then
        { st with networkIntervals := st.networkIntervals + 1
                  lastNetworkData := { stats with dateCaptured := now }
                  lastNetworkError := none }
      else
        { st with networkIntervals := st.networkIntervals + 1 }
  | Except.error _ => st

/-- A completion event of the running system: one settled asynchronous
callback or one handled request. -/
inductive Event where
  | cpuSeed : Except JsVal CpuData → Event
  | cpuTick : Int → Except JsVal CpuData → Event
  | netResolveFail : JsVal → Event
  | netSeed : Except JsVal NetworkData → Event
  | netTick : Int → Except JsVal NetworkData → Event
  | request : Except JsVal (List (String × JsVal)) → Int → String → Event

/-- State transition of one event.  `netResolveFail` is the catch handler of
`networkInterfaceDefault` (lines 151-158): it records the error (the retry it
schedules is modelled separately by `netBootstrapStep`). -/
def stepEvent (st : ListenerState) : Event → ListenerState
  | Event.cpuSeed r => cpuSeedStep st r
  | Event.cpuTick now r => cpuTickStep st now r
  | Event.netResolveFail e => { st with lastNetworkError := some e }
  | Event.netSeed r => netSeedStep st r
  | Event.netTick now r => netTickStep st now r
  | Event.request m now p => (requestListener st m now p).1

/-- Folding a trace of completion events over a state. -/
def runEvents (st : ListenerState) (tr : List Event) : ListenerState :=
  tr.foldl stepEvent st

/-- `RETRY_DELAY`: the fixed wait (ms) before the bootstrap is retried
(source line 158, the literal `1000` of `setTimeout`). -/
def RETRY_DELAY : Nat := 1000

/-- One settled attempt of `networkInterfaceDefault` inside
`_initNetworkMonitoring`: on failure the catch (lines 151-159) records the
error and schedules a retry of the whole bootstrap after `RETRY_DELAY` ms;
on success no retry is scheduled and the resolved interface name is handed to
the seed call.  Result: new state, the scheduled retry delay (if any), and
the resolved interface (if any). -/
def netBootstrapStep (st : ListenerState) (r : Except JsVal String) :
    ListenerState × Option Nat × Option String :=
  match r with
  | Except.error e =>
      ({ st with lastNetworkError := some e }, some RETRY_DELAY, none)
  | Except.ok nic => (st, none, some nic)

/-- The state after a run of consecutive failed bootstrap attempts. -/
def netBootstrapRetries (st : ListenerState) (failures : List JsVal) :
    ListenerState :=
  failures.foldl (fun s e => (netBootstrapStep s (Except.error e)).1) st

/-- CPU events of a trace. -/
def isCpuEvent : Event → Bool
  | Event.cpuSeed _ => true
  | Event.cpuTick _ _ => true
  | _ => false

/-- Is the event the CPU seed-call completion? -/
def isCpuSeedEvent : Event → Bool
  | Event.cpuSeed _ => true
  | _ => false

/-- Is the event a CPU interval-tick completion? -/
def isCpuTickEvent : Event → Bool
  | Event.cpuTick _ _ => true
  | _ => false

/-- Network sampling events of a trace (seed or tick; the bootstrap failure
event touches no counter and no cached data). -/
def isNetSampleEvent : Event → Bool
  | Event.netSeed _ => true
  | Event.netTick _ _ => true
  | _ => false

/-- Is the event the network seed-call completion? -/
def isNetSeedEvent : Event → Bool
  | Event.netSeed _ => true
  | _ => false

/-- Is the event a network interval-tick completion? -/
def isNetTickEvent : Event → Bool
  | Event.netTick _ _ => true
  | _ => false

/-- A cell's sampling events are well-shaped when they are nothing, or one
seed completion followed only by tick completions. -/
def seedThenTicks (isSeed isTick : Event → Bool) : List Event → Bool
  | [] => true
  | e :: rest => isSeed e && rest.all isTick

/-- Well-formedness of a trace for the CPU cell: the seed call settles before
the interval starts (the `setInterval` sits in the continuation of the seed's
promise chain), so the CPU events are nothing, or one seed completion
followed only by tick completions. -/
def CpuWF (tr : List Event) : Bool :=
  seedThenTicks isCpuSeedEvent isCpuTickEvent (tr.filter isCpuEvent)

/-- Well-formedness for the network cell: the seed call settles before the
interval starts, so the network sampling events are nothing, or one seed
completion followed only by tick completions. -/
def NetWF (tr : List Event) : Bool :=
  seedThenTicks isNetSeedEvent isNetTickEvent (tr.filter isNetSampleEvent)

/-- The value a successful CPU sample completion would contribute: the raw
seed snapshot (never adopted) or the time-stamped tick snapshot. -/
def cpuSuccOf : Event → Option CpuData
  | Event.cpuSeed (Except.ok s) => some s
  | Event.cpuTick now (Except.ok s) => some { s with dateCaptured := now }
  | _ => none

/-- The successful CPU samples of a trace, in completion order. -/
def cpuSuccList (tr : List Event) : List CpuData :=
  tr.filterMap cpuSuccOf

/-- The value a successful network sample completion would contribute. -/
def netSuccOf : Event → Option NetworkData
  | Event.netSeed (Except.ok s) => some s
  | Event.netTick now (Except.ok s) => some { s with dateCaptured := now }
  | _ => none

/-- The successful network samples of a trace, in completion order. -/
def netSuccList (tr : List Event) : List NetworkData :=
  tr.filterMap netSuccOf

/-- Type of the request-handler closure with explicit state. -/
def HandlerFun : Type :=
  ListenerState → Except JsVal (List (String × JsVal)) → Int → String →
    ListenerState × Response × Bool

/-- What `new MetricsListener(...)` can evaluate to: the freshly allocated
instance (the JavaScript default), or an object the constructor returned
explicitly. -/
inductive ConstructorResult where
  | listenerInstance : ListenerState → ConstructorResult
  | handlerFunction : HandlerFun → ConstructorResult

/-- Model of `new MetricsListener(apiPath, interval)` (lines 11-33).  The
constructor body ends in `return this.requestListener()`, and a JavaScript
constructor that returns an object makes `new` evaluate to that object, so
the expression yields the handler closure.  The second component is the
captured instance state at that moment. -/
def newMetricsListener (apiPath : String) (interval : Int) :
    ConstructorResult × ListenerState :=
  (ConstructorResult.handlerFunction requestListener,
   initialState apiPath interval)

/-- The seven concrete routes of the switch statement (lines 177-228): a path
satisfying this predicate is served by a dedicated case, every other path
under the api path falls through to the counting 404 default case. -/
def matchedPath (a p : String) : Prop :=
  p = a ++ "/health" ∨ p = a ++ "/requests/total" ∨ p = a ++ "/cpu" ∨
  p = a ++ "/memory" ∨ p = a ++ "/network" ∨ p = a ++ "/network/rx" ∨
  p = a ++ "/network/tx"

instance (a p : String) : Decidable (matchedPath a p) := by
  unfold matchedPath
  infer_instance

/-- The routing guard of lines 167-172: the path neither equals the api path
nor starts with the api path followed by a slash. -/
def outsideApiPath (a p : String) : Prop :=
  p ≠ a ∧ jsStartsWith p (a ++ "/") = false

instance (a p : String) : Decidable (outsideApiPath a p) := by
  unfold outsideApiPath
  infer_instance

/-- Concrete CPU sample used by witnesses. -/
def cpuSampleA : CpuData :=
  { defaultCpuData with avgload := 7, currentload := 40, currentload_idle := 60 }

/-- Second concrete CPU sample used by witnesses. -/
def cpuSampleB : CpuData :=
  { defaultCpuData with avgload := 9, currentload := 55, currentload_idle := 45 }

/-- Concrete network sample used by witnesses. -/
def netSampleA : NetworkData :=
  { defaultNetworkData with rx := 11, tx := 13, rx_sec := 2, tx_sec := 3, ms := 1000 }

/-- Second concrete network sample used by witnesses. -/
def netSampleB : NetworkData :=
  { defaultNetworkData with rx := 20, tx := 30, rx_sec := 4, tx_sec := 5, ms := 1001 }

/-- Witness trace: both cells complete a seed call and a later tick. -/
def traceTwoSamples : List Event :=
  [Event.cpuSeed (Except.ok cpuSampleA),
   Event.netSeed (Except.ok netSampleA),
   Event.cpuTick 5 (Except.ok cpuSampleB),
   Event.netTick 6 (Except.ok netSampleB)]

/-- Witness trace: one successful seed per cell, then a failing CPU tick and
an unmatched request. -/
def traceOneSample : List Event :=
  [Event.cpuSeed (Except.ok cpuSampleA),
   Event.netSeed (Except.ok netSampleA),
   Event.cpuTick 3 (Except.error (JsVal.vstr "cpu boom")),
   Event.request (Except.ok []) 4 "/elsewhere"]

/-- Counterexample trace: a successful network seed followed by a failing
network interval tick. -/
def traceNetTickFails : List Event :=
  [Event.netSeed (Except.ok netSampleA),
   Event.netTick 5 (Except.error (JsVal.vstr "boom"))]

/-- A state with both error cells set and both counters past the first
success, used to witness error clearing on adoption. -/
def stateWithErrors : ListenerState :=
  { initialState "/metrics" 1000 with
      lastCpuError := some (JsVal.vstr "cpu err")
      lastNetworkError := some (JsVal.vstr "net err")
      cpuIntervals := 1
      networkIntervals := 1 }

/-!
### Helper lemmas

General facts about strings, prefixes, the request handler's frame, and the
effect of one trace on a sampling cell.
-/

lemma isPrefixOf_append_left (l xs ys : List Char)
    (h : xs.isPrefixOf ys = true) : (l ++ xs).isPrefixOf (l ++ ys) = true := by
  induction l with
  | nil => simpa using h
  | cons c cs ih => simpa [List.isPrefixOf] using ih

lemma jsStartsWith_shared (a x y : String)
    (h : x.data.isPrefixOf y.data = true) :
    jsStartsWith (a ++ y) (a ++ x) = true := by
  unfold jsStartsWith
  rw [String.data_append, String.data_append]
  exact isPrefixOf_append_left a.data x.data y.data h

lemma string_append_right_inj (a x y : String) : a ++ x = a ++ y ↔ x = y := by
  constructor
  · intro h
    have hd := congrArg String.data h
    rw [String.data_append, String.data_append] at hd
    exact String.ext (List.append_cancel_left hd)
  · intro h
    rw [h]

lemma requestListener_fst (st : ListenerState)
    (m : Except JsVal (List (String × JsVal))) (now : Int) (p : String) :
    (requestListener st m now p).1 = st ∨
    (requestListener st m now p).1 =
      { st with requestCount := st.requestCount + 1 } := by
  unfold requestListener
  split_ifs <;> first | (left ; rfl) | (right ; rfl)

lemma stepEvent_cpu_frame (st : ListenerState) (e : Event)
    (h : isCpuEvent e = false) :
    (stepEvent st e).cpuIntervals = st.cpuIntervals ∧
    (stepEvent st e).lastCpuData = st.lastCpuData := by
  cases e with
  | cpuSeed r => simp [isCpuEvent] at h
  | cpuTick now r => simp [isCpuEvent] at h
  | netResolveFail err => simp [stepEvent]
  | netSeed r => cases r <;> simp [stepEvent, netSeedStep]
  | netTick now r =>
      cases r with
      | ok s =>
          simp only [stepEvent, netTickStep]
          split <;> simp
      | error err => simp [stepEvent, netTickStep]
  | request m now p =>
      rcases requestListener_fst st m now p with h1 | h1 <;> simp [stepEvent, h1]

lemma stepEvent_net_frame (st : ListenerState) (e : Event)
    (h : isNetSampleEvent e = false) :
    (stepEvent st e).networkIntervals = st.networkIntervals ∧
    (stepEvent st e).lastNetworkData = st.lastNetworkData := by
  cases e with
  | netSeed r => simp [isNetSampleEvent] at h
  | netTick now r => simp [isNetSampleEvent] at h
  | netResolveFail err => simp [stepEvent]
  | cpuSeed r => cases r <;> simp [stepEvent, cpuSeedStep]
  | cpuTick now r =>
      cases r with
      | ok s =>
          simp only [stepEvent, cpuTickStep]
          split <;> simp
      | error err => simp [stepEvent, cpuTickStep]
  | request m now p =>
      rcases requestListener_fst st m now p with h1 | h1 <;> simp [stepEvent, h1]

lemma cpuSuccOf_eq_none (e : Event) (h : isCpuEvent e = false) :
    cpuSuccOf e = none := by
  cases e <;> simp_all [isCpuEvent, cpuSuccOf]

lemma netSuccOf_eq_none (e : Event) (h : isNetSampleEvent e = false) :
    netSuccOf e = none := by
  cases e <;> simp_all [isNetSampleEvent, netSuccOf]

lemma cpuSuccList_of_filter_nil (tr : List Event)
    (h : tr.filter isCpuEvent = []) : cpuSuccList tr = [] := by
  unfold cpuSuccList
  rw [List.filterMap_eq_nil_iff]
  intro e he
  have := List.filter_eq_nil_iff.mp h e he
  exact cpuSuccOf_eq_none e (by simpa using this)

lemma netSuccList_of_filter_nil (tr : List Event)
    (h : tr.filter isNetSampleEvent = []) : netSuccList tr = [] := by
  unfold netSuccList
  rw [List.filterMap_eq_nil_iff]
  intro e he
  have := List.filter_eq_nil_iff.mp h e he
  exact netSuccOf_eq_none e (by simpa using this)

lemma cpuWF_append (tr : List Event) (e : Event)
    (h : CpuWF (tr ++ [e]) = true) : CpuWF tr = true := by
  unfold CpuWF at h ⊢
  rw [List.filter_append] at h
  cases hf : tr.filter isCpuEvent with
  | nil => simp [seedThenTicks]
  | cons x rest =>
      rw [hf, List.cons_append] at h
      simp only [seedThenTicks, List.all_append, Bool.and_eq_true] at h ⊢
      exact ⟨h.1, h.2.1⟩

lemma netWF_append (tr : List Event) (e : Event)
    (h : NetWF (tr ++ [e]) = true) : NetWF tr = true := by
  unfold NetWF at h ⊢
  rw [List.filter_append] at h
  cases hf : tr.filter isNetSampleEvent with
  | nil => simp [seedThenTicks]
  | cons x rest =>
      rw [hf, List.cons_append] at h
      simp only [seedThenTicks, List.all_append, Bool.and_eq_true] at h ⊢
      exact ⟨h.1, h.2.1⟩

lemma cpuWF_seed_last (tr : List Event) (r : Except JsVal CpuData)
    (h : CpuWF (tr ++ [Event.cpuSeed r]) = true) :
    tr.filter isCpuEvent = [] := by
  unfold CpuWF at h
  rw [List.filter_append] at h
  have he : List.filter isCpuEvent [Event.cpuSeed r] = [Event.cpuSeed r] := by
    simp [isCpuEvent]
  rw [he] at h
  cases hf : tr.filter isCpuEvent with
  | nil => rfl
  | cons x rest =>
      rw [hf, List.cons_append] at h
      simp only [seedThenTicks, List.all_append, Bool.and_eq_true,
        List.all_cons, List.all_nil, Bool.and_true] at h
      simp [isCpuTickEvent] at h

lemma netWF_seed_last (tr : List Event) (r : Except JsVal NetworkData)
    (h : NetWF (tr ++ [Event.netSeed r]) = true) :
    tr.filter isNetSampleEvent = [] := by
  unfold NetWF at h
  rw [List.filter_append] at h
  have he : List.filter isNetSampleEvent [Event.netSeed r] =
      [Event.netSeed r] := by
    simp [isNetSampleEvent]
  rw [he] at h
  cases hf : tr.filter isNetSampleEvent with
  | nil => rfl
  | cons x rest =>
      rw [hf, List.cons_append] at h
      simp only [seedThenTicks, List.all_append, Bool.and_eq_true,
        List.all_cons, List.all_nil, Bool.and_true] at h
      simp [isNetTickEvent] at h

lemma runEvents_append_one (st : ListenerState) (tr : List Event) (e : Event) :
    runEvents st (tr ++ [e]) = stepEvent (runEvents st tr) e := by
  simp [runEvents, List.foldl_append]

lemma getLastD_mem_of_ne_nil {α : Type} (l : List α) (d : α) (h : l ≠ []) :
    l.getLastD d ∈ l := by
  induction l generalizing d with
  | nil => exact absurd rfl h
  | cons x xs ih =>
      rw [List.getLastD_cons]
      cases hx : xs with
      | nil => simp [hx]
      | cons y ys =>
          have := ih (d := x) (by simp [hx])
      
          rw [hx] at this
          exact List.mem_cons_of_mem x (by rw [← hx] at this ⊢; exact this)

lemma getLastD_mem_tail {α : Type} (l : List α) (d : α) (h : 2 ≤ l.length) :
    l.getLastD d ∈ l.tail := by
  match l with
  | [] => simp at h
  | [x] => simp at h
  | x :: y :: rest =>
      rw [List.getLastD_cons]
      exact getLastD_mem_of_ne_nil (y :: rest) x (by simp)

/-- What a trace does to the CPU cell: the counter equals the number of
successful CPU samples completed, and the cached value is the default until
the second success, after which it is the time-stamped value of the last
successful sample. -/
lemma cpu_run_spec (a : String) (i : Int) (tr : List Event)
    (h : CpuWF tr = true) :
    (runEvents (initialState a i) tr).cpuIntervals = (cpuSuccList tr).length ∧
    (runEvents (initialState a i) tr).lastCpuData =
      (if (cpuSuccList tr).length ≤ 1 then defaultCpuData
       else (cpuSuccList tr).getLastD defaultCpuData) := by
  induction tr using List.reverseRecOn with
  | nil => simp [runEvents, cpuSuccList, initialState]
  | append_singleton tr e ih =>
      have hwf : CpuWF tr = true := cpuWF_append tr e h
      obtain ⟨ih1, ih2⟩ := ih hwf
      rw [runEvents_append_one]
      cases e with
      | netResolveFail err =>
          have hs : cpuSuccList (tr ++ [Event.netResolveFail err]) =
              cpuSuccList tr := by
            simp [cpuSuccList, List.filterMap_append, cpuSuccOf]
          have hfr := stepEvent_cpu_frame (runEvents (initialState a i) tr)
            (Event.netResolveFail err) rfl
          rw [hs]
          exact ⟨by rw [hfr.1, ih1], by rw [hfr.2, ih2]⟩
      | netSeed r =>
          have hs : cpuSuccList (tr ++ [Event.netSeed r]) = cpuSuccList tr := by
            simp [cpuSuccList, List.filterMap_append, cpuSuccOf]
          have hfr := stepEvent_cpu_frame (runEvents (initialState a i) tr)
            (Event.netSeed r) rfl
          rw [hs]
          exact ⟨by rw [hfr.1, ih1], by rw [hfr.2, ih2]⟩
      | netTick now r =>
          have hs : cpuSuccList (tr ++ [Event.netTick now r]) =
              cpuSuccList tr := by
            simp [cpuSuccList, List.filterMap_append, cpuSuccOf]
          have hfr := stepEvent_cpu_frame (runEvents (initialState a i) tr)
            (Event.netTick now r) rfl
          rw [hs]
          exact ⟨by rw [hfr.1, ih1], by rw [hfr.2, ih2]⟩
      | request m now p =>
          have hs : cpuSuccList (tr ++ [Event.request m now p]) =
              cpuSuccList tr := by
            simp [cpuSuccList, List.filterMap_append, cpuSuccOf]
          have hfr := stepEvent_cpu_frame (runEvents (initialState a i) tr)
            (Event.request m now p) rfl
          rw [hs]
          exact ⟨by rw [hfr.1, ih1], by rw [hfr.2, ih2]⟩
      | cpuSeed r =>
          have hnil : cpuSuccList tr = [] :=
            cpuSuccList_of_filter_nil tr (cpuWF_seed_last tr r h)
          rw [hnil] at ih1 ih2
          simp only [List.length_nil, Nat.zero_le, if_pos] at ih2
          cases r with
          | ok s =>
              have hs : cpuSuccList (tr ++ [Event.cpuSeed (Except.ok s)]) =
                  [s] := by
                have h0 : cpuSuccList (tr ++ [Event.cpuSeed (Except.ok s)]) =
                    cpuSuccList tr ++ [s] := by
                  simp [cpuSuccList, List.filterMap_append, cpuSuccOf]
                rw [h0, hnil, List.nil_append]
              rw [hs]
              simp [stepEvent, cpuSeedStep, ih1, ih2]
          | error err =>
              have hs : cpuSuccList (tr ++ [Event.cpuSeed (Except.error err)]) =
                  [] := by
                have h0 : cpuSuccList (tr ++ [Event.cpuSeed (Except.error err)]) =
                    cpuSuccList tr := by
                  simp [cpuSuccList, List.filterMap_append, cpuSuccOf]
                rw [h0, hnil]
              rw [hs]
              simp [stepEvent, cpuSeedStep, ih1, ih2]
      | cpuTick now r =>
          cases r with
          | error err =>
              have hs : cpuSuccList (tr ++ [Event.cpuTick now (Except.error err)]) =
                  cpuSuccList tr := by
                simp [cpuSuccList, List.filterMap_append, cpuSuccOf]
              rw [hs]
              simp only [stepEvent, cpuTickStep]
              exact ⟨by simp [ih1], by simp [ih2]⟩
          | ok s =>
              have hs : cpuSuccList (tr ++ [Event.cpuTick now (Except.ok s)]) =
                  cpuSuccList tr ++ [{ s with dateCaptured := now }] := by
                simp [cpuSuccList, List.filterMap_append, cpuSuccOf]
              rw [hs]
              simp only [stepEvent, cpuTickStep]
              rcases Nat.eq_zero_or_pos (cpuSuccList tr).length with hn | hn
              · have hcond : ¬ ((runEvents (initialState a i) tr).cpuIntervals + 1 > 1) := by
                  omega
                rw [if_neg hcond]
                constructor
                · simp [ih1, hn]
                · have : (cpuSuccList tr ++ [{ s with dateCaptured := now }]).length ≤ 1 := by
                    simp [hn]
                  rw [if_pos this]
                  rw [ih2, if_pos (by omega)]
              · have hcond : (runEvents (initialState a i) tr).cpuIntervals + 1 > 1 := by
                  rw [ih1]
                  omega
                rw [if_pos hcond]
                constructor
                · simp [ih1]
                · have hlen : ¬ ((cpuSuccList tr ++ [{ s with dateCaptured := now }]).length ≤ 1) := by
                    simp only [List.length_append, List.length_cons,
                      List.length_nil]
                    omega
                  rw [if_neg hlen, List.getLastD_concat]

/-- What a trace does to the network cell: the counter equals the number of
successful network samples completed, and the cached value is the default
until the second success, after which it is the time-stamped value of the
last successful sample. -/
lemma net_run_spec (a : String) (i : Int) (tr : List Event)
    (h : NetWF tr = true) :
    (runEvents (initialState a i) tr).networkIntervals =
      (netSuccList tr).length ∧
    (runEvents (initialState a i) tr).lastNetworkData =
      (if (netSuccList tr).length ≤ 1 then defaultNetworkData
       else (netSuccList tr).getLastD defaultNetworkData) := by
  induction tr using List.reverseRecOn with
  | nil => simp [runEvents, netSuccList, initialState]
  | append_singleton tr e ih =>
      have hwf : NetWF tr = true := netWF_append tr e h
      obtain ⟨ih1, ih2⟩ := ih hwf
      rw [runEvents_append_one]
      cases e with
      | netResolveFail err =>
          have hs : netSuccList (tr ++ [Event.netResolveFail err]) =
              netSuccList tr := by
            simp [netSuccList, List.filterMap_append, netSuccOf]
          have hfr := stepEvent_net_frame (runEvents (initialState a i) tr)
            (Event.netResolveFail err) rfl
          rw [hs]
          exact ⟨by rw [hfr.1, ih1], by rw [hfr.2, ih2]⟩
      | cpuSeed r =>
          have hs : netSuccList (tr ++ [Event.cpuSeed r]) = netSuccList tr := by
            simp [netSuccList, List.filterMap_append, netSuccOf]
          have hfr := stepEvent_net_frame (runEvents (initialState a i) tr)
            (Event.cpuSeed r) rfl
          rw [hs]
          exact ⟨by rw [hfr.1, ih1], by rw [hfr.2, ih2]⟩
      | cpuTick now r =>
          have hs : netSuccList (tr ++ [Event.cpuTick now r]) =
              netSuccList tr := by
            simp [netSuccList, List.filterMap_append, netSuccOf]
          have hfr := stepEvent_net_frame (runEvents (initialState a i) tr)
            (Event.cpuTick now r) rfl
          rw [hs]
          exact ⟨by rw [hfr.1, ih1], by rw [hfr.2, ih2]⟩
      | request m now p =>
          have hs : netSuccList (tr ++ [Event.request m now p]) =
              netSuccList tr := by
            simp [netSuccList, List.filterMap_append, netSuccOf]
          have hfr := stepEvent_net_frame (runEvents (initialState a i) tr)
            (Event.request m now p) rfl
          rw [hs]
          exact ⟨by rw [hfr.1, ih1], by rw [hfr.2, ih2]⟩
      | netSeed r =>
          have hnil : netSuccList tr = [] :=
            netSuccList_of_filter_nil tr (netWF_seed_last tr r h)
          rw [hnil] at ih1 ih2
          simp only [List.length_nil, Nat.zero_le, if_pos] at ih2
          cases r with
          | ok s =>
              have hs : netSuccList (tr ++ [Event.netSeed (Except.ok s)]) =
                  [s] := by
                have h0 : netSuccList (tr ++ [Event.netSeed (Except.ok s)]) =
                    netSuccList tr ++ [s] := by
                  simp [netSuccList, List.filterMap_append, netSuccOf]
                rw [h0, hnil, List.nil_append]
              rw [hs]
              simp [stepEvent, netSeedStep, ih1, ih2]
          | error err =>
              have hs : netSuccList (tr ++ [Event.netSeed (Except.error err)]) =
                  [] := by
                have h0 : netSuccList (tr ++ [Event.netSeed (Except.error err)]) =
                    netSuccList tr := by
                  simp [netSuccList, List.filterMap_append, netSuccOf]
                rw [h0, hnil]
              rw [hs]
              simp [stepEvent, netSeedStep, ih1, ih2]
      | netTick now r =>
          cases r with
          | error err =>
              have hs : netSuccList (tr ++ [Event.netTick now (Except.error err)]) =
                  netSuccList tr := by
                simp [netSuccList, List.filterMap_append, netSuccOf]
              rw [hs]
              simp only [stepEvent, netTickStep]
              exact ⟨ih1, ih2⟩
          | ok s =>
              have hs : netSuccList (tr ++ [Event.netTick now (Except.ok s)]) =
                  netSuccList tr ++ [{ s with dateCaptured := now }] := by
                simp [netSuccList, List.filterMap_append, netSuccOf]
              rw [hs]
              simp only [stepEvent, netTickStep]
              rcases Nat.eq_zero_or_pos (netSuccList tr).length with hn | hn
              · have hcond : ¬ ((runEvents (initialState a i) tr).networkIntervals + 1 > 1) := by
                  rw [ih1]
                  omega
                rw [if_neg hcond]
                constructor
                · simp [ih1, hn]
                · have : (netSuccList tr ++ [{ s with dateCaptured := now }]).length ≤ 1 := by
                    simp [hn]
                  rw [if_pos this]
                  rw [ih2, if_pos (by omega)]
              · have hcond : (runEvents (initialState a i) tr).networkIntervals + 1 > 1 := by
                  rw [ih1]
                  omega
                rw [if_pos hcond]
                constructor
                · simp [ih1]
                · have hlen : ¬ ((netSuccList tr ++ [{ s with dateCaptured := now }]).length ≤ 1) := by
                    simp only [List.length_append, List.length_cons,
                      List.length_nil]
                    omega
                  rw [if_neg hlen, List.getLastD_concat]

lemma matched_inside (a p : String) (h : matchedPath a p) :
    jsStartsWith p (a ++ "/") = true := by
  rcases h with h | h | h | h | h | h | h <;> subst h
  · exact jsStartsWith_shared a "/" "/health" (by decide)
  · exact jsStartsWith_shared a "/" "/requests/total" (by decide)
  · exact jsStartsWith_shared a "/" "/cpu" (by decide)
  · exact jsStartsWith_shared a "/" "/memory" (by decide)
  · exact jsStartsWith_shared a "/" "/network" (by decide)
  · exact jsStartsWith_shared a "/" "/network/rx" (by decide)
  · exact jsStartsWith_shared a "/" "/network/tx" (by decide)

lemma not_outside_suffix (a x : String)
    (hx : ("/" : String).data.isPrefixOf x.data = true) :
    ¬ (a ++ x ≠ a ∧ jsStartsWith (a ++ x) (a ++ "/") = false) := by
  intro hcontra
  rw [jsStartsWith_shared a "/" x hx] at hcontra
  exact Bool.noConfusion hcontra.2

lemma append_ne_of_ne (a : String) {x y : String} (hxy : x ≠ y) :
    a ++ x ≠ a ++ y := by
  intro h
  exact hxy ((string_append_right_inj a x y).mp h)

lemma requestListener_error_frame (st : ListenerState)
    (m : Except JsVal (List (String × JsVal))) (now : Int) (p : String) :
    (requestListener st m now p).1.lastCpuError = st.lastCpuError ∧
    (requestListener st m now p).1.lastNetworkError = st.lastNetworkError := by
  rcases requestListener_fst st m now p with h1 | h1 <;> simp [h1]

lemma stripTrailingSlashes_eq_empty (s : String)
    (h : ∀ c ∈ s.data, c = '/') : stripTrailingSlashes s = "" := by
  unfold stripTrailingSlashes
  have hd : s.data.reverse.dropWhile (fun c => decide (c = '/')) = [] := by
    rw [List.dropWhile_eq_nil_iff]
    intro c hc
    simp [h c (List.mem_reverse.mp hc)]
  rw [hd]
  rfl

lemma stripTrailingSlashes_ne_empty (s : String)
    (hex : ∃ c ∈ s.data, c ≠ '/') : stripTrailingSlashes s ≠ "" := by
  unfold stripTrailingSlashes
  obtain ⟨c, hc, hcne⟩ := hex
  intro h
  have hdata : (s.data.reverse.dropWhile (fun c => decide (c = '/'))).reverse = [] := by
    have := congrArg String.data h
    simpa using this
  rw [List.reverse_eq_nil_iff, List.dropWhile_eq_nil_iff] at hdata
  have := hdata c (List.mem_reverse.mpr hc)
  simp at this
  exact hcne this

lemma stripTrailingSlashes_no_trailing (s : String) :
    (stripTrailingSlashes s).data.getLast? ≠ some '/' := by
  unfold stripTrailingSlashes
  show ((s.data.reverse.dropWhile (fun c => decide (c = '/'))).reverse).getLast? ≠ some '/'
  rw [List.getLast?_reverse]
  generalize s.data.reverse = l
  induction l with
  | nil => simp
  | cons c cs ih =>
      by_cases hc : c = '/'
      · simpa [List.dropWhile_cons, hc] using ih
      · simp [List.dropWhile_cons, hc]

/-!
### Claim theorems
-/

/-- Claim C1: first-sample suppression.  For both cells, in every well-formed
trace: after exactly one completed successful sample the cached value is still
the pre-sampling default, and after N ≥ 2 completed successful samples the
cached value is the time-stamped value of one of the 2nd-through-Nth
successful samples (an element of the tail of the success list), never the
first sample's value. -/
theorem first_sample_suppression (a : String) (i : Int) (tr : List Event)
    (hc : CpuWF tr = true) (hn : NetWF tr = true) :
    ((cpuSuccList tr).length = 1 →
       (runEvents (initialState a i) tr).lastCpuData = defaultCpuData)
  ∧ (2 ≤ (cpuSuccList tr).length →
       (runEvents (initialState a i) tr).lastCpuData ∈ (cpuSuccList tr).tail)
  ∧ ((netSuccList tr).length = 1 →
       (runEvents (initialState a i) tr).lastNetworkData = defaultNetworkData)
  ∧ (2 ≤ (netSuccList tr).length →
       (runEvents (initialState a i) tr).lastNetworkData ∈
         (netSuccList tr).tail) := by
  obtain ⟨hc1, hc2⟩ := cpu_run_spec a i tr hc
  obtain ⟨hn1, hn2⟩ := net_run_spec a i tr hn
  refine ⟨?_, ?_, ?_, ?_⟩
  · intro h1
    rw [hc2, if_pos (by omega)]
  · intro h2
    rw [hc2, if_neg (by omega)]
    exact getLastD_mem_tail _ _ h2
  · intro h1
    rw [hn2, if_pos (by omega)]
  · intro h2
    rw [hn2, if_neg (by omega)]
    exact getLastD_mem_tail _ _ h2

/-- Witness for C1 on a concrete two-success trace for each cell. -/
theorem first_sample_suppression_witness :
    CpuWF traceTwoSamples = true ∧ NetWF traceTwoSamples = true
  ∧ 2 ≤ (cpuSuccList traceTwoSamples).length
  ∧ (runEvents (initialState "/metrics" 1000) traceTwoSamples).lastCpuData ∈
      (cpuSuccList traceTwoSamples).tail
  ∧ 2 ≤ (netSuccList traceTwoSamples).length
  ∧ (runEvents (initialState "/metrics" 1000) traceTwoSamples).lastNetworkData ∈
      (netSuccList traceTwoSamples).tail := by
  refine ⟨by decide, by decide, by decide, ?_, by decide, ?_⟩
  · exact (first_sample_suppression "/metrics" 1000 traceTwoSamples
      (by decide) (by decide)).2.1 (by decide)
  · exact (first_sample_suppression "/metrics" 1000 traceTwoSamples
      (by decide) (by decide)).2.2.2 (by decide)

/-- Claim C8: default-value invariant.  The defaults installed by
`_initializeDefaults` have idle = 100 with every other CPU load field 0 and
an empty core list, and unknown interface and state with zero counters and
rate sentinels -1; the freshly constructed state carries exactly these
defaults, and every well-formed trace in which a cell has completed at most
one successful sample (i.e. no sample has been adopted) leaves that cell's
cached value at its default. -/
theorem default_value_invariant (a : String) (i : Int) (tr : List Event)
    (hc : CpuWF tr = true) (hn : NetWF tr = true) :
    (defaultCpuData.currentload_idle = 100
     ∧ defaultCpuData.avgload = 0
     ∧ defaultCpuData.currentload = 0
     ∧ defaultCpuData.currentload_user = 0
     ∧ defaultCpuData.currentload_system = 0
     ∧ defaultCpuData.currentload_nice = 0
     ∧ defaultCpuData.currentload_irq = 0
     ∧ defaultCpuData.raw_currentload = 0
     ∧ defaultCpuData.raw_currentload_user = 0
     ∧ defaultCpuData.raw_currentload_system = 0
     ∧ defaultCpuData.raw_currentload_nice = 0
     ∧ defaultCpuData.raw_currentload_idle = 0
     ∧ defaultCpuData.raw_currentload_irq = 0
     ∧ defaultCpuData.cpus = [])
  ∧ (defaultNetworkData.iface = "unknown"
     ∧ defaultNetworkData.operstate = "unknown"
     ∧ defaultNetworkData.rx = 0
     ∧ defaultNetworkData.tx = 0
     ∧ defaultNetworkData.rx_sec = -1
     ∧ defaultNetworkData.tx_sec = -1
     ∧ (initialState a i).lastCpuData = defaultCpuData
     ∧ (initialState a i).lastNetworkData = defaultNetworkData)
  ∧ ((cpuSuccList tr).length ≤ 1 →
       (runEvents (initialState a i) tr).lastCpuData = defaultCpuData)
  ∧ ((netSuccList tr).length ≤ 1 →
       (runEvents (initialState a i) tr).lastNetworkData =
         defaultNetworkData) := by
  obtain ⟨hc1, hc2⟩ := cpu_run_spec a i tr hc
  obtain ⟨hn1, hn2⟩ := net_run_spec a i tr hn
  refine ⟨⟨rfl, rfl, rfl, rfl, rfl, rfl, rfl, rfl, rfl, rfl, rfl, rfl, rfl, rfl⟩,
    ⟨rfl, rfl, rfl, rfl, rfl, rfl, rfl, rfl⟩, ?_, ?_⟩
  · intro h1
    rw [hc2, if_pos h1]
  · intro h1
    rw [hn2, if_pos h1]

/-- Witness for C8 on a concrete trace with one success per cell, a failing
CPU tick and an unrelated request. -/
theorem default_value_invariant_witness :
    (runEvents (initialState "/m/" 0) traceOneSample).lastCpuData =
      defaultCpuData
  ∧ (runEvents (initialState "/m/" 0) traceOneSample).lastNetworkData =
      defaultNetworkData := by
  have h := default_value_invariant "/m/" 0 traceOneSample (by decide) (by decide)
  exact ⟨h.2.2.1 (by decide), h.2.2.2 (by decide)⟩

/-- Claim C2 counterexample: in the well-formed trace where the network seed
succeeds and the next network interval tick fails, the failing sample is not
recorded — `lastNetworkError` is still `null` afterwards (the interval's
promise chain at source lines 136-145 has no rejection handler). -/
theorem sample_failure_recorded_counterexample :
    NetWF traceNetTickFails = true
  ∧ CpuWF traceNetTickFails = true
  ∧ (runEvents (initialState "/metrics" 1000)
       traceNetTickFails).lastNetworkError = none := by
  exact ⟨by decide, by decide, rfl⟩

/-- Claim C2 (amended): every failing CPU sample (seed or tick) records the
failure in `lastCpuError` and leaves the cached value unchanged; for the
network cell the failing seed call and the failing interface resolution
record `lastNetworkError` and leave the cached value unchanged, but a failing
periodic network tick leaves the whole state unchanged (its failure is never
recorded); a recorded error stays non-null until the same cell adopts a
successful sample, i.e. until a successful tick beyond the cell's first
success completes. -/
theorem sample_failure_recorded_amended (st : ListenerState) (now : Int)
    (e : JsVal) :
    (cpuSeedStep st (Except.error e)).lastCpuError = some e
  ∧ (cpuSeedStep st (Except.error e)).lastCpuData = st.lastCpuData
  ∧ (cpuTickStep st now (Except.error e)).lastCpuError = some e
  ∧ (cpuTickStep st now (Except.error e)).lastCpuData = st.lastCpuData
  ∧ (netSeedStep st (Except.error e)).lastNetworkError = some e
  ∧ (netSeedStep st (Except.error e)).lastNetworkData = st.lastNetworkData
  ∧ (stepEvent st (Event.netResolveFail e)).lastNetworkError = some e
  ∧ (stepEvent st (Event.netResolveFail e)).lastNetworkData =
      st.lastNetworkData
  ∧ netTickStep st now (Except.error e) = st
  ∧ (∀ ev : Event, st.lastCpuError ≠ none →
       (stepEvent st ev).lastCpuError = none →
       ∃ t s, ev = Event.cpuTick t (Except.ok s) ∧ 1 ≤ st.cpuIntervals)
  ∧ (∀ ev : Event, st.lastNetworkError ≠ none →
       (stepEvent st ev).lastNetworkError = none →
       ∃ t s, ev = Event.netTick t (Except.ok s) ∧
         1 ≤ st.networkIntervals) := by
  refine ⟨rfl, rfl, rfl, rfl, rfl, rfl, rfl, rfl, rfl, ?_, ?_⟩
  · intro ev h1 h2
    cases ev with
    | cpuSeed r =>
        cases r with
        | ok s => exact absurd h2 (h1 ·)
        | error err => simp [stepEvent, cpuSeedStep] at h2
    | cpuTick t r =>
        cases r with
        | ok s =>
            by_cases hcond : st.cpuIntervals + 1 > 1
            · exact ⟨t, s, rfl, by omega⟩
            · have hpres : (stepEvent st (Event.cpuTick t (Except.ok s))).lastCpuError =
                  st.lastCpuError := by
                simp only [stepEvent, cpuTickStep]
                rw [if_neg hcond]
              exact absurd h2 (by rw [hpres]; exact h1)
        | error err => simp [stepEvent, cpuTickStep] at h2
    | netResolveFail err => exact absurd h2 (h1 ·)
    | netSeed r =>
        cases r with
        | ok s => exact absurd h2 (h1 ·)
        | error err => exact absurd h2 (h1 ·)
    | netTick t r =>
        cases r with
        | ok s =>
            have hpres : (stepEvent st (Event.netTick t (Except.ok s))).lastCpuError =
                st.lastCpuError := by
              simp only [stepEvent, netTickStep]
              split <;> rfl
            exact absurd h2 (by rw [hpres]; exact h1)
        | error err => exact absurd h2 (h1 ·)
    | request m t p =>
        have hfr := requestListener_error_frame st m t p
        exact absurd h2 (by
          show ¬ (requestListener st m t p).1.lastCpuError = none
          rw [hfr.1]
          exact h1)
  · intro ev h1 h2
    cases ev with
    | cpuSeed r =>
        cases r with
        | ok s => exact absurd h2 (h1 ·)
        | error err => exact absurd h2 (h1 ·)
    | cpuTick t r =>
        cases r with
        | ok s =>
            have hpres : (stepEvent st (Event.cpuTick t (Except.ok s))).lastNetworkError =
                st.lastNetworkError := by
              simp only [stepEvent, cpuTickStep]
              split <;> rfl
            exact absurd h2 (by rw [hpres]; exact h1)
        | error err => exact absurd h2 (h1 ·)
    | netResolveFail err => simp [stepEvent] at h2
    | netSeed r =>
        cases r with
        | ok s => exact absurd h2 (h1 ·)
        | error err => simp [stepEvent, netSeedStep] at h2
    | netTick t r =>
        cases r with
        | ok s =>
            by_cases hcond : st.networkIntervals + 1 > 1
            · exact ⟨t, s, rfl, by omega⟩
            · have hpres : (stepEvent st (Event.netTick t (Except.ok s))).lastNetworkError =
                  st.lastNetworkError := by
                simp only [stepEvent, netTickStep]
                rw [if_neg hcond]
              exact absurd h2 (by rw [hpres]; exact h1)
        | error err => exact absurd h2 (h1 ·)
    | request m t p =>
        have hfr := requestListener_error_frame st m t p
        exact absurd h2 (by
          show ¬ (requestListener st m t p).1.lastNetworkError = none
          rw [hfr.2]
          exact h1)

/-- Witness for the amended C2: at a state with both errors set and both
counters past the first success, an error can only disappear through an
adopting successful tick of the same cell. -/
theorem sample_failure_recorded_amended_witness :
    (∃ t s, Event.cpuTick 9 (Except.ok cpuSampleA) =
        Event.cpuTick t (Except.ok s) ∧ 1 ≤ stateWithErrors.cpuIntervals)
  ∧ (∃ t s, Event.netTick 9 (Except.ok netSampleA) =
        Event.netTick t (Except.ok s) ∧
        1 ≤ stateWithErrors.networkIntervals) := by
  have h := sample_failure_recorded_amended stateWithErrors 9 (JsVal.vstr "x")
  refine ⟨?_, ?_⟩
  · exact h.2.2.2.2.2.2.2.2.2.1 (Event.cpuTick 9 (Except.ok cpuSampleA))
      (by simp [stateWithErrors]) rfl
  · exact h.2.2.2.2.2.2.2.2.2.2 (Event.netTick 9 (Except.ok netSampleA))
      (by simp [stateWithErrors]) rfl

lemma route_dispatch (st : ListenerState)
    (m : Except JsVal (List (String × JsVal))) (now : Int) :
    requestListener st m now (st.apiPath ++ "/health") =
      (st, { statusCode := some 200, contentType := none, body := some "ok" },
       true)
  ∧ requestListener st m now (st.apiPath ++ "/requests/total") =
      (st,
       successResponse
         (JsVal.vstr ("\x7b\"metric\": " ++ toString st.requestCount ++ "\x7d")),
       true)
  ∧ requestListener st m now (st.apiPath ++ "/cpu") =
      (st,
       (match st.lastCpuError with
        | some e => errorResponse e
        | none => successResponse (cpuToJs st.lastCpuData)),
       true)
  ∧ requestListener st m now (st.apiPath ++ "/memory") =
      (st,
       (match m with
        | Except.ok memStats =>
            successResponse
              (JsVal.vobj (setField memStats "dateCaptured" (JsVal.vnum now)))
        | Except.error e => errorResponse e),
       true)
  ∧ requestListener st m now (st.apiPath ++ "/network") =
      (st,
       (match st.lastNetworkError with
        | some e => errorResponse e
        | none => successResponse (networkToJs st.lastNetworkData)),
       true)
  ∧ requestListener st m now (st.apiPath ++ "/network/rx") =
      (st,
       (match st.lastNetworkError with
        | some e => errorResponse e
        | none =>
            successResponse
              (JsVal.vstr
                ("\x7b\"metric\": " ++ toString st.lastNetworkData.rx ++ "\x7d"))),
       true)
  ∧ requestListener st m now (st.apiPath ++ "/network/tx") =
      (st,
       (match st.lastNetworkError with
        | some e => errorResponse e
        | none =>
            successResponse
              (JsVal.vstr
                ("\x7b\"metric\": " ++ toString st.lastNetworkData.tx ++ "\x7d"))),
       true) := by
  refine ⟨?_, ?_, ?_, ?_, ?_, ?_, ?_⟩
  · unfold requestListener
    rw [if_neg (not_outside_suffix st.apiPath "/health" (by decide)),
      if_pos rfl]
  · unfold requestListener
    rw [if_neg (not_outside_suffix st.apiPath "/requests/total" (by decide)),
      if_neg (append_ne_of_ne st.apiPath (by decide)),
      if_pos rfl]
  · unfold requestListener
    rw [if_neg (not_outside_suffix st.apiPath "/cpu" (by decide)),
      if_neg (append_ne_of_ne st.apiPath (by decide)),
      if_neg (append_ne_of_ne st.apiPath (by decide)),
      if_pos rfl]
  · unfold requestListener
    rw [if_neg (not_outside_suffix st.apiPath "/memory" (by decide)),
      if_neg (append_ne_of_ne st.apiPath (by decide)),
      if_neg (append_ne_of_ne st.apiPath (by decide)),
      if_neg (append_ne_of_ne st.apiPath (by decide)),
      if_pos rfl]
  · unfold requestListener
    rw [if_neg (not_outside_suffix st.apiPath "/network" (by decide)),
      if_neg (append_ne_of_ne st.apiPath (by decide)),
      if_neg (append_ne_of_ne st.apiPath (by decide)),
      if_neg (append_ne_of_ne st.apiPath (by decide)),
      if_neg (append_ne_of_ne st.apiPath (by decide)),
      if_pos rfl]
  · unfold requestListener
    rw [if_neg (not_outside_suffix st.apiPath "/network/rx" (by decide)),
      if_neg (append_ne_of_ne st.apiPath (by decide)),
      if_neg (append_ne_of_ne st.apiPath (by decide)),
      if_neg (append_ne_of_ne st.apiPath (by decide)),
      if_neg (append_ne_of_ne st.apiPath (by decide)),
      if_neg (append_ne_of_ne st.apiPath (by decide)),
      if_pos rfl]
  · unfold requestListener
    rw [if_neg (not_outside_suffix st.apiPath "/network/tx" (by decide)),
      if_neg (append_ne_of_ne st.apiPath (by decide)),
      if_neg (append_ne_of_ne st.apiPath (by decide)),
      if_neg (append_ne_of_ne st.apiPath (by decide)),
      if_neg (append_ne_of_ne st.apiPath (by decide)),
      if_neg (append_ne_of_ne st.apiPath (by decide)),
      if_neg (append_ne_of_ne st.apiPath (by decide)),
      if_pos rfl]

lemma default_dispatch (st : ListenerState)
    (m : Except JsVal (List (String × JsVal))) (now : Int) (p : String)
    (h0 : ¬ outsideApiPath st.apiPath p) (hm : ¬ matchedPath st.apiPath p) :
    requestListener st m now p =
      ({ st with requestCount := st.requestCount + 1 },
       { statusCode := some 404, contentType := none, body := some "" },
       true) := by
  have h0' : ¬ (p ≠ st.apiPath ∧
      jsStartsWith p (st.apiPath ++ "/") = false) := h0
  unfold requestListener
  rw [if_neg h0',
    if_neg (fun h => hm (Or.inl h)),
    if_neg (fun h => hm (Or.inr (Or.inl h))),
    if_neg (fun h => hm (Or.inr (Or.inr (Or.inl h)))),
    if_neg (fun h => hm (Or.inr (Or.inr (Or.inr (Or.inl h))))),
    if_neg (fun h => hm (Or.inr (Or.inr (Or.inr (Or.inr (Or.inl h)))))),
    if_neg (fun h => hm (Or.inr (Or.inr (Or.inr (Or.inr (Or.inr (Or.inl h))))))),
    if_neg (fun h => hm (Or.inr (Or.inr (Or.inr (Or.inr (Or.inr (Or.inr h)))))))]

/-- Claim C3: the request counter is incremented exactly for requests whose
path is outside the api path (neither equal to it nor under it) and for
unmatched paths claimed under the api path; requests dispatched to the seven
concrete routes leave the counter unchanged. -/
theorem request_counter_exactness (st : ListenerState)
    (m : Except JsVal (List (String × JsVal))) (now : Int) (p : String) :
    ((requestListener st m now p).1.requestCount = st.requestCount + 1 ↔
       (outsideApiPath st.apiPath p ∨
        (¬ outsideApiPath st.apiPath p ∧ ¬ matchedPath st.apiPath p)))
  ∧ (matchedPath st.apiPath p →
       (requestListener st m now p).1.requestCount = st.requestCount) := by
  by_cases h0 : outsideApiPath st.apiPath p
  · have h0' : p ≠ st.apiPath ∧ jsStartsWith p (st.apiPath ++ "/") = false := h0
    have hre : requestListener st m now p =
        ({ st with requestCount := st.requestCount + 1 }, emptyResponse,
         false) := by
      unfold requestListener
      rw [if_pos h0']
    rw [hre]
    refine ⟨⟨fun _ => Or.inl h0, fun _ => rfl⟩, fun hm => ?_⟩
    exact absurd (matched_inside st.apiPath p hm) (by simp [h0.2])
  · by_cases hm : matchedPath st.apiPath p
    · have hd := route_dispatch st m now
      have hcount : (requestListener st m now p).1.requestCount =
          st.requestCount := by
        rcases hm with h | h | h | h | h | h | h <;> subst h
        · rw [hd.1]
        · rw [hd.2.1]
        · rw [hd.2.2.1]
        · rw [hd.2.2.2.1]
        · rw [hd.2.2.2.2.1]
        · rw [hd.2.2.2.2.2.1]
        · rw [hd.2.2.2.2.2.2]
      refine ⟨⟨fun hfalse => ?_, fun hr => ?_⟩, fun _ => hcount⟩
      · rw [hcount] at hfalse
        exact absurd hfalse (by omega)
      · rcases hr with ho | ⟨hno, hnm⟩
        · exact absurd ho h0
        · exact absurd hm hnm
    · rw [default_dispatch st m now p h0 hm]
      exact ⟨⟨fun _ => Or.inr ⟨h0, hm⟩, fun _ => rfl⟩, fun hmm => absurd hmm hm⟩

/-- Claim C4: the four cached-metric routes respond 500 with the serialized
cached error when the cell's `lastError` is non-null and 200 with the cached
value otherwise (full snapshot for `/cpu` and `/network`, a
`{"metric": ...}` string for the rx/tx routes); the state is returned
unchanged and the result does not depend on the stat source (`m`) or the
clock (`now`), so the request never triggers a fresh sample. -/
theorem cached_route_reads (st : ListenerState)
    (m : Except JsVal (List (String × JsVal))) (now : Int) :
    requestListener st m now (st.apiPath ++ "/cpu") =
      (st,
       (match st.lastCpuError with
        | some e => errorResponse e
        | none => successResponse (cpuToJs st.lastCpuData)),
       true)
  ∧ requestListener st m now (st.apiPath ++ "/network") =
      (st,
       (match st.lastNetworkError with
        | some e => errorResponse e
        | none => successResponse (networkToJs st.lastNetworkData)),
       true)
  ∧ requestListener st m now (st.apiPath ++ "/network/rx") =
      (st,
       (match st.lastNetworkError with
        | some e => errorResponse e
        | none =>
            successResponse
              (JsVal.vstr
                ("\x7b\"metric\": " ++ toString st.lastNetworkData.rx ++ "\x7d"))),
       true)
  ∧ requestListener st m now (st.apiPath ++ "/network/tx") =
      (st,
       (match st.lastNetworkError with
        | some e => errorResponse e
        | none =>
            successResponse
              (JsVal.vstr
                ("\x7b\"metric\": " ++ toString st.lastNetworkData.tx ++ "\x7d"))),
       true) := by
  have hd := route_dispatch st m now
  exact ⟨hd.2.2.1, hd.2.2.2.2.1, hd.2.2.2.2.2.1, hd.2.2.2.2.2.2⟩

/-- Claim C6: a request whose path is outside the api path is not claimed
(the `req.requestHandled` flag stays false), increments the counter, and
writes nothing to the response; every request whose path is under the api
path has the claim flag set. -/
theorem unmatched_request_passthrough (st : ListenerState)
    (m : Except JsVal (List (String × JsVal))) (now : Int) (p : String) :
    (outsideApiPath st.apiPath p →
       requestListener st m now p =
         ({ st with requestCount := st.requestCount + 1 }, emptyResponse,
          false))
  ∧ (¬ outsideApiPath st.apiPath p →
       (requestListener st m now p).2.2 = true) := by
  constructor
  · intro h
    have h' : p ≠ st.apiPath ∧ jsStartsWith p (st.apiPath ++ "/") = false := h
    unfold requestListener
    rw [if_pos h']
  · intro h
    have h' : ¬ (p ≠ st.apiPath ∧
        jsStartsWith p (st.apiPath ++ "/") = false) := h
    unfold requestListener
    rw [if_neg h']
    split_ifs <;> rfl

/-- Witness for C6 at the default configuration: `/other/path` passes through
unclaimed with the counter bumped, `/metrics/health` is claimed. -/
theorem unmatched_request_passthrough_witness :
    requestListener (initialState "/metrics" 1000) (Except.ok []) 0
        "/other/path" =
      ({ initialState "/metrics" 1000 with requestCount := 1 },
       emptyResponse, false)
  ∧ (requestListener (initialState "/metrics" 1000) (Except.ok []) 0
       "/metrics/health").2.2 = true := by
  constructor
  · exact (unmatched_request_passthrough (initialState "/metrics" 1000)
      (Except.ok []) 0 "/other/path").1 (by decide)
  · exact (unmatched_request_passthrough (initialState "/metrics" 1000)
      (Except.ok []) 0 "/metrics/health").2 (by decide)

/-- Claim C5 counterexample: a whitespace-only apiPath is truthy in
JavaScript, so it is not replaced by the default — constructing with `" "`
yields effective prefix `" "`, not `/metrics`. -/
theorem prefix_normalization_counterexample :
    normalizeApiPath " " = " " ∧ normalizeApiPath " " ≠ DEFAULT_PATH ∧
    (initialState " " 1000).apiPath = " " := by
  exact ⟨by decide, by decide, by decide⟩

/-- Claim C5 (amended): all trailing `'/'` characters are stripped at
construction; an apiPath that is empty, or consists only of `'/'` characters
(and thus becomes empty after stripping), is replaced by the default
`/metrics`; a whitespace-only but nonempty apiPath is kept, not replaced.
In particular `"/m/"` yields `"/m"`, `""` yields `"/metrics"`, and the
normalized prefix never ends in `'/'`. -/
theorem prefix_normalization_amended :
    (∀ s : String, s ≠ "" → (∃ c ∈ s.data, c ≠ '/') →
       normalizeApiPath s = stripTrailingSlashes s)
  ∧ (∀ s : String, (s = "" ∨ ∀ c ∈ s.data, c = '/') →
       normalizeApiPath s = DEFAULT_PATH)
  ∧ normalizeApiPath "/m/" = "/m"
  ∧ normalizeApiPath "" = DEFAULT_PATH
  ∧ normalizeApiPath " " = " "
  ∧ (∀ s : String, (normalizeApiPath s).data.getLast? ≠ some '/') := by
  refine ⟨?_, ?_, by decide, by decide, by decide, ?_⟩
  · intro s hne hex
    have hs : stripTrailingSlashes s ≠ "" := stripTrailingSlashes_ne_empty s hex
    simp only [normalizeApiPath]
    rw [if_neg hne, if_neg hs]
  · intro s h
    rcases h with h | h
    · subst h
      decide
    · by_cases hne : s = ""
      · subst hne
        decide
      · have hs : stripTrailingSlashes s = "" := stripTrailingSlashes_eq_empty s h
        simp only [normalizeApiPath]
        rw [if_neg hne, if_pos hs]
  · intro s
    simp only [normalizeApiPath]
    by_cases h2 : stripTrailingSlashes (if s = "" then DEFAULT_PATH else s) = ""
    · rw [if_pos h2]
      decide
    · rw [if_neg h2]
      exact stripTrailingSlashes_no_trailing _

/-- Witness for the amended C5: a path with a real character is only
stripped, and an all-slash path falls back to the default. -/
theorem prefix_normalization_amended_witness :
    normalizeApiPath "/mm/" = stripTrailingSlashes "/mm/"
  ∧ normalizeApiPath "//" = DEFAULT_PATH :=
  ⟨prefix_normalization_amended.1 "/mm/" (by decide) ⟨'m', by decide, by decide⟩,
   prefix_normalization_amended.2.1 "//" (Or.inr (by decide))⟩

/-- Claim C7: `successResponse` sets status 200 with JSON content type and
`errorResponse` sets status 500 with the same content type; both write the
value verbatim when it is a string and its JSON serialization otherwise. -/
theorem response_encoding :
    (∀ s : String, successResponse (JsVal.vstr s) =
       { statusCode := some 200, contentType := some "application/json",
         body := some s })
  ∧ (∀ v : JsVal, (∀ s : String, v ≠ JsVal.vstr s) →
       successResponse v =
         { statusCode := some 200, contentType := some "application/json",
           body := some (stringify v) })
  ∧ (∀ s : String, errorResponse (JsVal.vstr s) =
       { statusCode := some 500, contentType := some "application/json",
         body := some s })
  ∧ (∀ v : JsVal, (∀ s : String, v ≠ JsVal.vstr s) →
       errorResponse v =
         { statusCode := some 500, contentType := some "application/json",
           body := some (stringify v) }) := by
  refine ⟨fun s => rfl, ?_, fun s => rfl, ?_⟩
  · intro v hv
    cases v with
    | vstr s => exact absurd rfl (hv s)
    | vnull => rfl
    | vbool b => rfl
    | vnum n => rfl
    | varr xs => rfl
    | vobj fs => rfl
  · intro v hv
    cases v with
    | vstr s => exact absurd rfl (hv s)
    | vnull => rfl
    | vbool b => rfl
    | vnum n => rfl
    | varr xs => rfl
    | vobj fs => rfl

/-- Witness for C7 on non-string payloads. -/
theorem response_encoding_witness :
    successResponse (JsVal.vnum 3) =
      { statusCode := some 200, contentType := some "application/json",
        body := some (stringify (JsVal.vnum 3)) }
  ∧ errorResponse JsVal.vnull =
      { statusCode := some 500, contentType := some "application/json",
        body := some (stringify JsVal.vnull) } :=
  ⟨response_encoding.2.1 (JsVal.vnum 3) (fun _ h => JsVal.noConfusion h),
   response_encoding.2.2.2 JsVal.vnull (fun _ h => JsVal.noConfusion h)⟩

/-- Claim C9: whenever default-interface resolution fails — after any number
of earlier failed attempts — the failure is recorded as the network cell's
`lastNetworkError`, no interface is handed to the sampling stage, and a retry
of the whole bootstrap is scheduled after the fixed `RETRY_DELAY` of 1000 ms;
running the retried attempt folds the same step again, so there is no cap on
the number of retries. -/
theorem bootstrap_retry (st : ListenerState) (failures : List JsVal)
    (e : JsVal) :
    (netBootstrapStep (netBootstrapRetries st failures)
        (Except.error e)).1.lastNetworkError = some e
  ∧ (netBootstrapStep (netBootstrapRetries st failures)
        (Except.error e)).2.1 = some RETRY_DELAY
  ∧ (netBootstrapStep (netBootstrapRetries st failures)
        (Except.error e)).2.2 = none
  ∧ RETRY_DELAY = 1000
  ∧ netBootstrapRetries st (failures ++ [e]) =
      (netBootstrapStep (netBootstrapRetries st failures) (Except.error e)).1
  ∧ (netBootstrapStep (netBootstrapRetries st failures)
        (Except.error e)).1.lastNetworkData =
      (netBootstrapRetries st failures).lastNetworkData := by
  refine ⟨rfl, rfl, rfl, rfl, ?_, rfl⟩
  simp [netBootstrapRetries, List.foldl_append]

/-- Claim C10: `new MetricsListener(apiPath, interval)` evaluates to the
request-listener closure — the constructor ends in
`return this.requestListener()` and a JavaScript constructor returning an
object makes `new` yield that object — and never to the instance itself;
the instance state it captures is the constructed initial state. -/
theorem constructor_returns_handler (a : String) (i : Int) :
    (newMetricsListener a i).1 =
      ConstructorResult.handlerFunction requestListener
  ∧ (∀ st : ListenerState,
       (newMetricsListener a i).1 ≠ ConstructorResult.listenerInstance st)
  ∧ (newMetricsListener a i).2 = initialState a i := by
  refine ⟨rfl, ?_, rfl⟩
  intro st h
  exact ConstructorResult.noConfusion h

/-- Witness for C3: a matched route (`/metrics/cpu`) leaves the counter
unchanged, a matched-but-unknown sub-path (`/metrics/bogus`) increments it. -/
theorem request_counter_exactness_witness :
    (requestListener (initialState "/metrics" 1000) (Except.ok []) 0
       "/metrics/cpu").1.requestCount =
      (initialState "/metrics" 1000).requestCount
  ∧ (requestListener (initialState "/metrics" 1000) (Except.ok []) 0
       "/metrics/bogus").1.requestCount =
      (initialState "/metrics" 1000).requestCount + 1 := by
  constructor
  · exact (request_counter_exactness (initialState "/metrics" 1000)
      (Except.ok []) 0 "/metrics/cpu").2 (by decide)
  · exact (request_counter_exactness (initialState "/metrics" 1000)
      (Except.ok []) 0 "/metrics/bogus").1.mpr
      (Or.inr ⟨by decide, by decide⟩)

/-- Witness for C10 at a concrete configuration. -/
theorem constructor_returns_handler_witness :
    (newMetricsListener "/m/" 500).1 =
      ConstructorResult.handlerFunction requestListener
  ∧ (newMetricsListener "/m/" 500).1 ≠
      ConstructorResult.listenerInstance (initialState "/m/" 500) :=
  ⟨(constructor_returns_handler "/m/" 500).1,
   (constructor_returns_handler "/m/" 500).2.1 (initialState "/m/" 500)⟩
